import Mathlib

/-!
Shallow embedding of the Void auto-triage agent (a Cloudflare worker that
triages Linear issues via an LLM-generated plan).

Source files embedded:
  - src/llm.ts  : the TriagePlan zod schema and the getTriagePlan retry loop;
  - src/kb.ts   : the label knowledge base and validateLabelIds;
  - src/linear.ts : the shapes of the tracker mutations (modelled as trace
    events, since their bodies are remote GraphQL calls);
  - src/worker.ts : handleNewIssue and handleComment, modelled as pure
    functions from an explicit external world (KB fetch results, model
    responses per attempt, the fetched issue) to the list of remote calls
    the handler issues, in order.

Conventions of the embedding:
  - JSON numbers are modelled as Int (no claim depends on fractional values);
  - a TypeScript string-truthiness test (`if (s)`) is modelled as
    matching an Option String against `some s` with `s` nonempty;
  - a thrown exception aborts the handler: the trace keeps the calls issued
    before the throw and nothing after;
  - tracker mutations are modelled as succeeding (a mutation failure would
    abort the trace; no claim in scope depends on mutation failure);
  - the LLM call itself is external: the world supplies, per attempt index,
    either a parsed JSON value or `none` (covering a failed call, empty
    content, and malformed JSON, which all land in the same catch block).
-/

/-- A JSON value, as produced by JSON.parse (numbers modelled as Int). -/
inductive Json where
  | null : Json
  | bool (b : Bool) : Json
  | num (n : Int) : Json
  | str (s : String) : Json
  | arr (xs : List Json) : Json
  | obj (fields : List (String × Json)) : Json

/-- Field lookup on a JSON object (absent on non-objects). -/
def Json.getField : Json → String → Option Json
  | .obj fs, k => fs.lookup k
  | _, _ => none

/-- The ticket priority enum of the TriagePlan schema. -/
inductive Priority where
  | urgent | high | medium | low | noPriority
deriving DecidableEq, Repr

/-- src/worker.ts priorityMap: priority names to Linear numeric IDs. -/
def priorityMap : Priority → Nat
  | .noPriority => 0
  | .urgent => 1
  | .high => 2
  | .medium => 3
  | .low => 4

/-- Optional rewrite content of a TriagePlan (zod sub-object). -/
structure Rewrite where
  title : Option String
  description : Option String
deriving DecidableEq, Repr

/-- src/llm.ts TriagePlanSchema: the validated shape of the model output. -/
structure TriagePlan where
  rewrite : Option Rewrite
  priority : Option Priority
  teamId : Option String
  labelIds : Option (List String)
  estimate : Option Int
  assigneeId : Option String
  subtasks : Option (List String)
  needsClarification : Bool
  clarificationComment : Option String
deriving DecidableEq, Repr

/-- zod z.string(): accepts exactly JSON strings. -/
def parseStr : Json → Option String
  | .str s => some s
  | _ => none

/-- zod z.boolean(): accepts exactly JSON booleans. -/
def parseBool : Json → Option Bool
  | .bool b => some b
  | _ => none

/-- zod z.number(): accepts exactly JSON numbers. -/
def parseNum : Json → Option Int
  | .num n => some n
  | _ => none

/-- zod z.array(z.string()): accepts arrays of strings only. -/
def parseStrList : Json → Option (List String)
  | .arr xs => xs.mapM parseStr
  | _ => none

/-- zod z.enum of the five priority names. -/
def parsePriority : Json → Option Priority
  | .str "Urgent" => some .urgent
  | .str "High" => some .high
  | .str "Medium" => some .medium
  | .str "Low" => some .low
  | .str "No priority" => some .noPriority
  | _ => none

/-- An optional field of a zod object: an absent key parses to `none`;
a present key must satisfy the field parser (a present null fails). -/
def parseOptField (j : Json) (k : String) (p : Json → Option α) :
    Option (Option α) :=
  match j.getField k with
  | none => some none
  | some v => (p v).map some

/-- The rewrite sub-schema: an object with optional title and description. -/
def parseRewrite : Json → Option Rewrite
  | .obj fs => do
      let t ← parseOptField (.obj fs) "title" parseStr
      let d ← parseOptField (.obj fs) "description" parseStr
      some ⟨t, d⟩
  | _ => none

/-- src/llm.ts TriagePlanSchema.parse: validates a parsed JSON value into a
TriagePlan. Every field except needsClarification is optional; in
particular clarificationComment is an unconstrained optional string
(no conditional requirement and no bot-marker check). -/
def parseTriagePlan (j : Json) : Option TriagePlan :=
  match j with
  | .obj _ => do
      let rw ← parseOptField j "rewrite" parseRewrite
      let pr ← parseOptField j "priority" parsePriority
      let tid ← parseOptField j "teamId" parseStr
      let lids ← parseOptField j "labelIds" parseStrList
      let est ← parseOptField j "estimate" parseNum
      let aid ← parseOptField j "assigneeId" parseStr
      let sts ← parseOptField j "subtasks" parseStrList
      let nc ← (j.getField "needsClarification").bind parseBool
      let cc ← parseOptField j "clarificationComment" parseStr
      some { rewrite := rw, priority := pr, teamId := tid, labelIds := lids,
             estimate := est, assigneeId := aid, subtasks := sts,
             needsClarification := nc, clarificationComment := cc }
  | _ => none

/-! ## The retry loop of src/llm.ts getTriagePlan -/

instance {ε α : Type} [DecidableEq ε] [DecidableEq α] :
    DecidableEq (Except ε α) := fun x y =>
  match x, y with
  | .ok a, .ok b =>
      if h : a = b then .isTrue (by rw [h])
      else .isFalse (by intro hh; injection hh; exact h (by assumption))
  | .error a, .error b =>
      if h : a = b then .isTrue (by rw [h])
      else .isFalse (by intro hh; injection hh; exact h (by assumption))
  | .ok _, .error _ => .isFalse (by intro hh; exact Except.noConfusion hh)
  | .error _, .ok _ => .isFalse (by intro hh; exact Except.noConfusion hh)

def MAX_RETRIES : Nat := 3

def RETRY_DELAY_MS : Nat := 1000

/-- Outcome of one attempt of the loop body: the model response for attempt
i (none when the call failed, returned empty content, or returned
malformed JSON) run through schema validation. -/
def attemptResult (responses : Nat → Option Json) (i : Nat) :
    Option TriagePlan :=
  (responses i).bind parseTriagePlan

/-- One unrolling of the for-loop of getTriagePlan: attempt index i with
`remaining` attempts left. Returns the result together with the list of
sleep durations (ms) taken between attempts, in order. -/
def runAttempts (responses : Nat → Option Json) :
    Nat → Nat → Except String TriagePlan × List Nat
  | _, 0 => (.error "Exited retry loop without returning a value.", [])
  | i, r + 1 =>
      match attemptResult responses i with
      | some plan => (.ok plan, [])
      | none =>
          if r = 0 then
            (.error
              "Failed to get a valid triage plan from the LLM after multiple retries.",
             [])
          else
            let rest := runAttempts responses (i + 1) r
            (rest.1, RETRY_DELAY_MS * (i + 1) :: rest.2)

/-- src/llm.ts getTriagePlan: up to MAX_RETRIES attempts; a validated plan
is returned as soon as one attempt succeeds; after the last failed attempt
the PlanGenerationFailed error is thrown (modelled as Except.error). -/
def getTriagePlan (responses : Nat → Option Json) :
    Except String TriagePlan × List Nat :=
  runAttempts responses 0 MAX_RETRIES

/-! ## src/kb.ts : label knowledge base and validation -/

/-- One node of the label knowledge base (labels.json): an id and a name. -/
structure LabelNode where
  id : String
  name : String
deriving DecidableEq, Repr

/-- src/kb.ts validateLabelIds, after the label KB fetch: the optional-chain
guard labelKb?.data?.issueLabels?.nodes is modelled by the Option: `none`
is a malformed KB (the guard fails and the function returns []); otherwise
the candidate ids are filtered by membership in the node-id set. -/
def validateLabelIds (kb : Option (List LabelNode)) (labelIds : List String) :
    List String :=
  match kb with
  | none => []
  | some nodes => labelIds.filter (fun id => (nodes.map (·.id)).contains id)

/-- Membership of an id in the label KB node set (the Set.has test of
validateLabelIds); false on a malformed KB. -/
def kbHasId (kb : Option (List LabelNode)) (id : String) : Bool :=
  match kb with
  | none => false
  | some nodes => (nodes.map (·.id)).contains id

/-! ## src/linear.ts and src/worker.ts : the trace model of the handlers -/

/-- The input object of the issueUpdate mutation (src/linear.ts
IssueUpdatePayload as sent by the worker; a field left at none is omitted
from the mutation input). -/
structure IssueUpdatePayload where
  title : Option String := none
  description : Option String := none
  teamId : Option String := none
  labelIds : Option (List String) := none
  estimate : Option Int := none
  priority : Option Nat := none
  assigneeId : Option String := none
deriving DecidableEq, Repr

/-- One remote call issued by a handler, in issue order. Reads (issue and
comment fetches, KV knowledge-base reads) and tracker mutations are both
recorded; the LLM call is not a tracker call and is kept out of the trace. -/
inductive RemoteCall where
  | getIssue (issueId : String)
  | getComments (issueId : String)
  | getTeamKB
  | getLabelKB
  | updateIssue (issueId : String) (payload : IssueUpdatePayload)
  | createComment (issueId : String) (body : String)
  | createSubtasks (parentId : String) (titles : List String)
  | subscribeToIssue (issueId : String) (userId : String)
  | addReaction (issueId : String) (emoji : String)
deriving DecidableEq, Repr

/-- Tracker mutations, as opposed to reads. -/
def RemoteCall.isMutation : RemoteCall → Bool
  | .updateIssue _ _ => true
  | .createComment _ _ => true
  | .createSubtasks _ _ => true
  | .subscribeToIssue _ _ => true
  | .addReaction _ _ => true
  | _ => false

/-- The three updateIssue projections used by the theorems below. -/
def updateCalls (trace : List RemoteCall) : List (String × IssueUpdatePayload) :=
  trace.filterMap fun c =>
    match c with
    | .updateIssue i p => some (i, p)
    | _ => none

def subscribeCalls (trace : List RemoteCall) : List (String × String) :=
  trace.filterMap fun c =>
    match c with
    | .subscribeToIssue i u => some (i, u)
    | _ => none

def commentCalls (trace : List RemoteCall) : List (String × String) :=
  trace.filterMap fun c =>
    match c with
    | .createComment i b => some (i, b)
    | _ => none

/-- The worker environment fields the handlers branch on.
AWAITING_INFO_LABEL_ID is an optional string secret. -/
structure HandlerEnv where
  awaitingInfoLabelId : Option String
deriving DecidableEq, Repr

/-- The issue fields of an issue-created webhook payload (src/worker.ts
IssueData, the fields the handler reads). -/
structure IssueData where
  id : String
  title : String
  description : Option String
  creator : Option String
deriving DecidableEq, Repr

/-- The comment fields of a comment-created webhook payload (src/worker.ts
CommentData, the fields the handler reads; issueId is data.issue.id). -/
structure CommentData where
  id : String
  body : String
  issueId : String
  userId : String
deriving DecidableEq, Repr

/-- The issue as fetched by getIssue in src/linear.ts (labels flattened to
their ids). -/
structure FetchedIssue where
  title : String
  description : Option String
  labelIds : List String
deriving DecidableEq, Repr

/-- The external world a handler runs against: the results the remote
collaborators would return. teamKbOk is false when the team_rules.json KV
entry is missing (getTeamKnowledgeBase throws); labelKb is Except.error
when the labels.json entry is missing (getLabelKnowledgeBase throws), and
otherwise carries the structured view used by validateLabelIds (none for a
malformed document). responses gives the model output per attempt index. -/
structure World where
  teamKbOk : Bool
  labelKb : Except Unit (Option (List LabelNode))
  responses : Nat → Option Json
  issue : FetchedIssue

/-- The invisible marker appended to system-authored comments. -/
def botMarker : String := "<!-- bot -->"

/-- Contiguous-subsequence test on character lists (the semantics of the
JavaScript String.prototype.includes). -/
def containsSeq (needle : List Char) : List Char → Bool
  | [] => needle.isEmpty
  | c :: cs => needle.isPrefixOf (c :: cs) || containsSeq needle cs

/-- data.body.includes of src/worker.ts, for the bot marker. -/
def containsBotMarker (s : String) : Bool :=
  containsSeq botMarker.data s.data

/-- The truthiness test plan.needsClarification && plan.clarificationComment
that selects the clarification branch in both handlers (an absent or empty
clarification comment is falsy in TypeScript). -/
def takesClarification (p : TriagePlan) : Bool :=
  p.needsClarification &&
    (match p.clarificationComment with
     | some c => !(c == "")
     | none => false)

/-- The completion emoji of both handlers. -/
def checkEmoji : String := "✅"

/-- The negation of the early-return condition of the relevance guard in
handleComment: an awaiting-info label is configured (present, nonempty)
and the fetched issue carries it. -/
def awaitingGuard (env : HandlerEnv) (labels : List String) : Bool :=
  match env.awaitingInfoLabelId with
  | none => false
  | some m => !(m == "") && labels.contains m

/-- The issueUpdate payload built in the else-branch of handleNewIssue:
note no title and no description field is set (plan.rewrite is not
read on this path). -/
def newIssueUpdatePayload (kb : Option (List LabelNode)) (plan : TriagePlan) :
    IssueUpdatePayload :=
  { teamId := plan.teamId,
    labelIds := some (validateLabelIds kb (plan.labelIds.getD [])),
    estimate := plan.estimate,
    priority := plan.priority.map priorityMap,
    assigneeId := plan.assigneeId }

/-- The subtask-creation step shared by both handlers:
if (subtasks && subtasks.length > 0) createMultipleSubtasks(...). -/
def subtaskStep (issueId : String) (subtasks : Option (List String)) :
    List RemoteCall :=
  match subtasks with
  | some ts => if ts.length > 0 then [.createSubtasks issueId ts] else []
  | none => []

/-- src/worker.ts handleNewIssue as a trace of remote calls: fetch both
knowledge bases (aborting where the source would throw), generate a plan,
then either post the clarification comment (plus the awaiting-info label
when one is configured and nonempty) or run the completion branch
(validateLabelIds refetches the label KB, then update, subtasks,
creator subscription, reaction). -/
def handleNewIssue (env : HandlerEnv) (w : World) (data : IssueData) :
    List RemoteCall :=
  .getTeamKB ::
  if !w.teamKbOk then [] else
  .getLabelKB ::
  match w.labelKb with
  | .error _ => []
  | .ok kbStruct =>
    match (getTriagePlan w.responses).1 with
    | .error _ => []
    | .ok plan =>
      if takesClarification plan then
        .createComment data.id (plan.clarificationComment.getD "") ::
        (match env.awaitingInfoLabelId with
         | some m =>
             if m == "" then []
             else [.updateIssue data.id { labelIds := some [m] }]
         | none => [])
      else
        .getLabelKB ::
        .updateIssue data.id (newIssueUpdatePayload kbStruct plan) ::
        subtaskStep data.id plan.subtasks ++
        (match data.creator with
         | some c => [.subscribeToIssue data.id c]
         | none => []) ++
        [.addReaction data.id checkEmoji]

/-- The final label list of the re-triage completion branch of
handleComment: current labels with the awaiting-info marker filtered out,
concatenated with the validated new label ids. -/
def finalLabelIds (current : List String) (marker : String)
    (valid : List String) : List String :=
  current.filter (fun id => !(id == marker)) ++ valid

/-- The issueUpdate payload built in the completion branch of
handleComment: here the rewrite is applied and the label set is the merge
computed by finalLabelIds. -/
def retriageUpdatePayload (kb : Option (List LabelNode)) (plan : TriagePlan)
    (currentLabels : List String) (marker : String) : IssueUpdatePayload :=
  { title := plan.rewrite.bind (·.title),
    description := plan.rewrite.bind (·.description),
    teamId := plan.teamId,
    labelIds := some (finalLabelIds currentLabels marker
      (validateLabelIds kb (plan.labelIds.getD []))),
    estimate := plan.estimate,
    priority := plan.priority.map priorityMap,
    assigneeId := plan.assigneeId }

/-- src/worker.ts handleComment as a trace of remote calls: the bot-marker
guard runs before anything else; then the issue is fetched and the
relevance guard (awaiting-info label configured, nonempty and present on
the issue) is checked; then both knowledge bases and the comment history
are fetched, a plan is generated, and either a new clarification comment
is posted (no label change) or the re-triage completion branch runs. -/
def handleComment (env : HandlerEnv) (w : World) (data : CommentData) :
    List RemoteCall :=
  if containsBotMarker data.body then [] else
  .getIssue data.issueId ::
  match env.awaitingInfoLabelId with
  | none => []
  | some m =>
    if m == "" then [] else
    if !(w.issue.labelIds.contains m) then [] else
    .getTeamKB ::
    if !w.teamKbOk then [] else
    .getLabelKB ::
    match w.labelKb with
    | .error _ => []
    | .ok kbStruct =>
      .getComments data.issueId ::
      match (getTriagePlan w.responses).1 with
      | .error _ => []
      | .ok plan =>
        if takesClarification plan then
          [.createComment data.issueId (plan.clarificationComment.getD "")]
        else
          .getLabelKB ::
          .updateIssue data.issueId
            (retriageUpdatePayload kbStruct plan w.issue.labelIds m) ::
          subtaskStep data.issueId plan.subtasks ++
          [.addReaction data.issueId checkEmoji]

/-! ## Theorems about the claims -/

/-- Claim C7: for every input sequence of label IDs, validateLabelIds
returns a subsequence of the input (preserving relative order) containing
only IDs present in the label knowledge base; an empty input, a malformed
KB, and a KB with an empty node list each yield the empty sequence. -/
theorem validateLabelIds_spec (kb : Option (List LabelNode))
    (ids : List String) :
    List.Sublist (validateLabelIds kb ids) ids ∧
    (validateLabelIds kb ids).all (kbHasId kb) = true ∧
    validateLabelIds kb [] = [] ∧
    validateLabelIds none ids = [] ∧
    validateLabelIds (some []) ids = [] := by
  refine ⟨?_, ?_, ?_, rfl, ?_⟩
  · cases kb with
    | none => simp [validateLabelIds]
    | some nodes => exact List.filter_sublist ids
  · cases kb with
    | none => simp [validateLabelIds]
    | some nodes =>
        simp only [validateLabelIds, kbHasId, List.all_eq_true]
        intro x hx
        exact (List.mem_filter.mp hx).2
  · cases kb <;> simp [validateLabelIds]
  · simp [validateLabelIds]

/-- Claim C4: a comment whose body contains the bot marker token makes the
comment handler issue zero remote calls, whatever the environment, the
world state and the rest of the payload: the guard is evaluated before any
other logic, so nothing else can influence the outcome. -/
theorem handleComment_botMarker_noCalls (env : HandlerEnv) (w : World)
    (data : CommentData) (h : containsBotMarker data.body = true) :
    handleComment env w data = [] := by
  simp [handleComment, h]

/-- Witness for C4 at a concrete bot-authored comment body. -/
theorem handleComment_botMarker_noCalls_witness :
    containsBotMarker "Could you clarify? <!-- bot -->" = true ∧
    handleComment ⟨some "M"⟩
      ⟨true, .ok (some []), fun _ => none, ⟨"t", none, ["M"]⟩⟩
      ⟨"c1", "Could you clarify? <!-- bot -->", "i1", "u1"⟩ = [] :=
  ⟨by decide, handleComment_botMarker_noCalls _ _ _ (by decide)⟩

/-- Counterexample to claim C3 as stated: a comment-created event on an
issue lacking the awaiting-info marker makes the handler issue one remote
call, the parent-issue fetch needed by the relevance guard, so the number
of remote calls is one and not zero. -/
theorem handleComment_irrelevant_counterexample :
    handleComment ⟨some "M"⟩
      ⟨true, .ok (some []), fun _ => none, ⟨"t", none, ["A"]⟩⟩
      ⟨"c1", "hello", "i1", "u1"⟩ = [.getIssue "i1"] ∧
    handleComment ⟨some "M"⟩
      ⟨true, .ok (some []), fun _ => none, ⟨"t", none, ["A"]⟩⟩
      ⟨"c1", "hello", "i1", "u1"⟩ ≠ [] := by
  constructor
  · decide
  · decide

/-- Claim C3 amended: for every comment-created event whose body does not
contain the bot marker, on an issue not carrying the awaiting-info marker
label (or when no marker is configured), the handler issues exactly one
remote call, the parent-issue fetch evaluated by the relevance guard, and
then discards the event: in particular it issues zero tracker mutations. -/
theorem handleComment_irrelevant_single_read (env : HandlerEnv) (w : World)
    (data : CommentData) (hbody : containsBotMarker data.body = false)
    (hguard : awaitingGuard env w.issue.labelIds = false) :
    handleComment env w data = [.getIssue data.issueId] := by
  cases henv : env.awaitingInfoLabelId with
  | none => simp [handleComment, hbody, henv]
  | some m =>
      simp only [awaitingGuard, henv] at hguard
      cases hm : (m == "") with
      | true => simp [handleComment, hbody, henv, hm]
      | false =>
          simp only [hm, Bool.not_false, Bool.true_and] at hguard
          simp [handleComment, hbody, henv, hm]
          simpa using hguard

/-- Witness for the amended C3 at a concrete irrelevant comment. -/
theorem handleComment_irrelevant_single_read_witness :
    containsBotMarker "hello there" = false ∧
    awaitingGuard ⟨some "M"⟩ ["A", "B"] = false ∧
    handleComment ⟨some "M"⟩
      ⟨true, .ok (some []), fun _ => none, ⟨"t", none, ["A", "B"]⟩⟩
      ⟨"c2", "hello there", "i2", "u2"⟩ = [.getIssue "i2"] :=
  ⟨by decide, by decide,
   handleComment_irrelevant_single_read _ _ _ (by decide) (by decide)⟩

/-- Helper: every element of the subtask-creation step is a
createSubtasks call for the parent issue. -/
theorem subtaskStep_elems (i : String) (ts : Option (List String)) :
    ∀ a ∈ subtaskStep i ts, ∃ t, a = RemoteCall.createSubtasks i t := by
  cases ts with
  | none => intro a ha; simp [subtaskStep] at ha
  | some l =>
      intro a ha
      simp only [subtaskStep] at ha
      split at ha
      · simp at ha
        exact ⟨l, ha⟩
      · simp at ha

/-- Claim C9: on the new-issue clarification path with an awaiting-info
label configured (present and nonempty), the only issue update issued
carries labelIds equal to the one-element list holding the marker and sets
no other field: the payload replaces the whole label set of the issue with
the marker instead of adding the marker to the existing labels. -/
theorem handleNewIssue_clarification_replaces_labels
    (env : HandlerEnv) (w : World) (data : IssueData) (m : String)
    (kbS : Option (List LabelNode)) (plan : TriagePlan)
    (hm : env.awaitingInfoLabelId = some m) (hm2 : (m == "") = false)
    (ht : w.teamKbOk = true) (hl : w.labelKb = .ok kbS)
    (hp : (getTriagePlan w.responses).1 = .ok plan)
    (hc : takesClarification plan = true) :
    updateCalls (handleNewIssue env w data) =
      [(data.id, { labelIds := some [m] })] := by
  simp [handleNewIssue, ht, hl, hp, hc, hm, hm2, updateCalls]

/-- Witness for C9 at a concrete clarification plan and marker M. -/
theorem handleNewIssue_clarification_replaces_labels_witness :
    takesClarification
      { rewrite := none, priority := none, teamId := none, labelIds := none,
        estimate := none, assigneeId := none, subtasks := none,
        needsClarification := true,
        clarificationComment := some "Which page? <!-- bot -->" } = true ∧
    updateCalls (handleNewIssue ⟨some "M"⟩
      ⟨true, .ok (some []),
       fun _ => some (.obj [("needsClarification", .bool true),
         ("clarificationComment", .str "Which page? <!-- bot -->")]),
       ⟨"t", none, []⟩⟩
      ⟨"i1", "vague title", none, none⟩) =
      [("i1", { labelIds := some ["M"] })] :=
  ⟨by decide,
   handleNewIssue_clarification_replaces_labels _ _ _ "M" (some [])
     { rewrite := none, priority := none, teamId := none, labelIds := none,
       estimate := none, assigneeId := none, subtasks := none,
       needsClarification := true,
       clarificationComment := some "Which page? <!-- bot -->" }
     rfl (by decide) rfl rfl (by decide) (by decide)⟩

/-- Counterexample to claim C1 as stated: a schema-valid plan with
needsClarification = true but no clarificationComment is routed to the
full-triage branch of handleNewIssue, which issues an update mutation
carrying the team from the plan and no comment-creation call. -/
theorem handleNewIssue_clarification_counterexample :
    (getTriagePlan (fun _ => some (.obj [("needsClarification", .bool true),
        ("teamId", .str "t1")]))).1 =
      .ok { rewrite := none, priority := none, teamId := some "t1",
            labelIds := none, estimate := none, assigneeId := none,
            subtasks := none, needsClarification := true,
            clarificationComment := none } ∧
    updateCalls (handleNewIssue ⟨some "M"⟩
      ⟨true, .ok (some []),
       fun _ => some (.obj [("needsClarification", .bool true),
         ("teamId", .str "t1")]),
       ⟨"t", none, []⟩⟩
      ⟨"i1", "title", none, none⟩) =
      [("i1", { teamId := some "t1", labelIds := some ([] : List String) })] ∧
    commentCalls (handleNewIssue ⟨some "M"⟩
      ⟨true, .ok (some []),
       fun _ => some (.obj [("needsClarification", .bool true),
         ("teamId", .str "t1")]),
       ⟨"t", none, []⟩⟩
      ⟨"i1", "title", none, none⟩) = [] := by
  exact ⟨by decide, by decide, by decide⟩

/-- Claim C1 amended: for every plan with needsClarification = true and a
present nonempty clarificationComment processed on the new-issue path, the
dispatcher issues exactly one comment-creation call and, when an
awaiting-info marker label is configured (present and nonempty), exactly
one label-setting update carrying only the marker; no team, estimate,
priority, assignee or plan-label mutation is issued from such a plan. -/
theorem handleNewIssue_clarification_mutations
    (env : HandlerEnv) (w : World) (data : IssueData)
    (kbS : Option (List LabelNode)) (plan : TriagePlan)
    (ht : w.teamKbOk = true) (hl : w.labelKb = .ok kbS)
    (hp : (getTriagePlan w.responses).1 = .ok plan)
    (hc : takesClarification plan = true) :
    (handleNewIssue env w data).filter (·.isMutation) =
      .createComment data.id (plan.clarificationComment.getD "") ::
      (match env.awaitingInfoLabelId with
       | some m =>
           if m == "" then []
           else [.updateIssue data.id { labelIds := some [m] }]
       | none => []) := by
  cases henv : env.awaitingInfoLabelId with
  | none => simp [handleNewIssue, ht, hl, hp, hc, henv, RemoteCall.isMutation]
  | some m =>
      cases hm : (m == "") <;>
        simp [handleNewIssue, ht, hl, hp, hc, henv, hm, RemoteCall.isMutation]

/-- Witness for the amended C1 at a concrete clarification plan. -/
theorem handleNewIssue_clarification_mutations_witness :
    takesClarification
      { rewrite := none, priority := none, teamId := none, labelIds := none,
        estimate := none, assigneeId := none, subtasks := none,
        needsClarification := true,
        clarificationComment := some "What browser? <!-- bot -->" } = true ∧
    (handleNewIssue ⟨some "M"⟩
      ⟨true, .ok (some []),
       fun _ => some (.obj [("needsClarification", .bool true),
         ("clarificationComment", .str "What browser? <!-- bot -->")]),
       ⟨"t", none, []⟩⟩
      ⟨"i9", "vague", none, none⟩).filter (·.isMutation) =
      [.createComment "i9" "What browser? <!-- bot -->",
       .updateIssue "i9" { labelIds := some ["M"] }] :=
  ⟨by decide,
   handleNewIssue_clarification_mutations _ _ _ (some [])
     { rewrite := none, priority := none, teamId := none, labelIds := none,
       estimate := none, assigneeId := none, subtasks := none,
       needsClarification := true,
       clarificationComment := some "What browser? <!-- bot -->" }
     rfl rfl (by decide) (by decide)⟩

/-- Claim C2 (code-bug evidence): at a plan with needsClarification = false
carrying a rewrite of both title and description, the single issue update
issued by handleNewIssue has no title and no description field (the
rewrite is discarded on the first-triage path), while the same plan on the
re-triage path of handleComment carries both rewrite fields. -/
theorem handleNewIssue_rewrite_dropped :
    (getTriagePlan (fun _ => some (.obj [("needsClarification", .bool false),
        ("rewrite", .obj [("title", .str "Clear title"),
                          ("description", .str "Clear description")])]))).1 =
      .ok { rewrite := some ⟨some "Clear title", some "Clear description"⟩,
            priority := none, teamId := none, labelIds := none,
            estimate := none, assigneeId := none, subtasks := none,
            needsClarification := false, clarificationComment := none } ∧
    updateCalls (handleNewIssue ⟨some "M"⟩
      ⟨true, .ok (some []),
       fun _ => some (.obj [("needsClarification", .bool false),
         ("rewrite", .obj [("title", .str "Clear title"),
                           ("description", .str "Clear description")])]),
       ⟨"t", none, []⟩⟩
      ⟨"i1", "original title", none, none⟩) =
      [("i1", { labelIds := some ([] : List String) })] ∧
    updateCalls (handleComment ⟨some "M"⟩
      ⟨true, .ok (some []),
       fun _ => some (.obj [("needsClarification", .bool false),
         ("rewrite", .obj [("title", .str "Clear title"),
                           ("description", .str "Clear description")])]),
       ⟨"t", none, ["A", "M"]⟩⟩
      ⟨"c1", "here is the missing info", "i1", "u1"⟩) =
      [("i1", { title := some "Clear title",
                description := some "Clear description",
                labelIds := some ["A"] })] := by
  exact ⟨by decide, by decide, by decide⟩

/-- Claim C10: on the first-triage completion path the creator subscription
is issued exactly when the inbound payload carries a creator; the mutation
sequence is the issue update, then the requested subtasks, then the
subscription when a creator is present, then the completion reaction, so
an absent creator still completes with no subscribe call. -/
theorem handleNewIssue_subscribe_iff_creator
    (env : HandlerEnv) (w : World) (data : IssueData)
    (kbS : Option (List LabelNode)) (plan : TriagePlan)
    (ht : w.teamKbOk = true) (hl : w.labelKb = .ok kbS)
    (hp : (getTriagePlan w.responses).1 = .ok plan)
    (hcf : takesClarification plan = false) :
    subscribeCalls (handleNewIssue env w data) =
      (match data.creator with
       | some c => [(data.id, c)]
       | none => []) ∧
    (handleNewIssue env w data).filter (·.isMutation) =
      .updateIssue data.id (newIssueUpdatePayload kbS plan) ::
      (subtaskStep data.id plan.subtasks ++
       (match data.creator with
        | some c => [.subscribeToIssue data.id c]
        | none => []) ++
       [.addReaction data.id checkEmoji]) := by
  constructor
  · cases hcr : data.creator <;>
      · simp [handleNewIssue, subscribeCalls, ht, hl, hp, hcf, hcr]
        intro a ha
        obtain ⟨t, rfl⟩ := subtaskStep_elems data.id plan.subtasks a ha
        rfl
  · cases hcr : data.creator <;>
      · simp [handleNewIssue, ht, hl, hp, hcf, hcr, RemoteCall.isMutation]
        intro a ha
        obtain ⟨t, rfl⟩ := subtaskStep_elems data.id plan.subtasks a ha
        rfl

/-- Witness for C10: a creator-less payload still gets subtasks and the
completion reaction, with no subscription call. -/
theorem handleNewIssue_subscribe_iff_creator_witness :
    subscribeCalls (handleNewIssue ⟨some "M"⟩
      ⟨true, .ok (some []),
       fun _ => some (.obj [("needsClarification", .bool false),
         ("subtasks", .arr [.str "part one", .str "part two"])]),
       ⟨"t", none, []⟩⟩
      ⟨"i1", "clear title", none, none⟩) = [] ∧
    (handleNewIssue ⟨some "M"⟩
      ⟨true, .ok (some []),
       fun _ => some (.obj [("needsClarification", .bool false),
         ("subtasks", .arr [.str "part one", .str "part two"])]),
       ⟨"t", none, []⟩⟩
      ⟨"i1", "clear title", none, none⟩).filter (·.isMutation) =
      [.updateIssue "i1" { labelIds := some ([] : List String) },
       .createSubtasks "i1" ["part one", "part two"],
       .addReaction "i1" checkEmoji] :=
  ⟨(handleNewIssue_subscribe_iff_creator _ _ _ (some [])
      { rewrite := none, priority := none, teamId := none, labelIds := none,
        estimate := none, assigneeId := none,
        subtasks := some ["part one", "part two"],
        needsClarification := false, clarificationComment := none }
      rfl rfl (by decide) (by decide)).1,
   (handleNewIssue_subscribe_iff_creator _ _ _ (some [])
      { rewrite := none, priority := none, teamId := none, labelIds := none,
        estimate := none, assigneeId := none,
        subtasks := some ["part one", "part two"],
        needsClarification := false, clarificationComment := none }
      rfl rfl (by decide) (by decide)).2⟩

/-- Claim C6: when every attempt up to MAX_RETRIES fails validation, plan
generation returns the PlanGenerationFailed error after sleeping
RETRY_DELAY_MS * 1 and then RETRY_DELAY_MS * 2 between the attempts
(linearly increasing in the attempt index), and the new-issue handler
issues zero tracker mutations for that event, whatever the rest of the
world looks like. -/
theorem getTriagePlan_retry_exhaustion
    (env : HandlerEnv) (w : World) (data : IssueData)
    (hfail : ∀ i, i < MAX_RETRIES → attemptResult w.responses i = none) :
    getTriagePlan w.responses =
      (.error
         "Failed to get a valid triage plan from the LLM after multiple retries.",
       [RETRY_DELAY_MS * 1, RETRY_DELAY_MS * 2]) ∧
    (handleNewIssue env w data).filter (·.isMutation) = [] ∧
    (∀ r r2 : Nat → Option Json, (∀ i, i < MAX_RETRIES → r i = r2 i) →
      getTriagePlan r = getTriagePlan r2) := by
  have h0 := hfail 0 (by decide)
  have h1 := hfail 1 (by decide)
  have h2 := hfail 2 (by decide)
  have hplan : getTriagePlan w.responses =
      (.error
         "Failed to get a valid triage plan from the LLM after multiple retries.",
       [RETRY_DELAY_MS * 1, RETRY_DELAY_MS * 2]) := by
    simp [getTriagePlan, MAX_RETRIES, runAttempts, h0, h1, h2]
  refine ⟨hplan, ?_, ?_⟩
  · cases ht : w.teamKbOk with
    | false => simp [handleNewIssue, ht, RemoteCall.isMutation]
    | true =>
        cases hl : w.labelKb with
        | error e => simp [handleNewIssue, ht, hl, RemoteCall.isMutation]
        | ok kbS =>
            simp [handleNewIssue, ht, hl, hplan, RemoteCall.isMutation]
  · intro r r2 hagree
    have e0 := hagree 0 (by decide)
    have e1 := hagree 1 (by decide)
    have e2 := hagree 2 (by decide)
    simp [getTriagePlan, MAX_RETRIES, runAttempts, attemptResult, e0, e1, e2]

/-- Witness for C6: a model that always fails; the error and both backoff
delays appear, and the handler issues nothing beyond the KB reads. -/
theorem getTriagePlan_retry_exhaustion_witness :
    (∀ i, i < MAX_RETRIES → attemptResult (fun _ => none) i = none) ∧
    getTriagePlan (fun _ => none) =
      (.error
         "Failed to get a valid triage plan from the LLM after multiple retries.",
       [1000, 2000]) ∧
    (handleNewIssue ⟨some "M"⟩
      ⟨true, .ok (some []), fun _ => none, ⟨"t", none, []⟩⟩
      ⟨"i1", "title", none, none⟩).filter (·.isMutation) = [] ∧
    getTriagePlan (fun _ => none) =
      getTriagePlan
        (fun i => if i < MAX_RETRIES then none
                  else some (.obj [("needsClarification", .bool false)])) :=
  ⟨fun _ _ => rfl,
   (getTriagePlan_retry_exhaustion ⟨some "M"⟩
      ⟨true, .ok (some []), fun _ => none, ⟨"t", none, []⟩⟩
      ⟨"i1", "title", none, none⟩ (fun _ _ => rfl)).1,
   (getTriagePlan_retry_exhaustion ⟨some "M"⟩
      ⟨true, .ok (some []), fun _ => none, ⟨"t", none, []⟩⟩
      ⟨"i1", "title", none, none⟩ (fun _ _ => rfl)).2.1,
   (getTriagePlan_retry_exhaustion ⟨some "M"⟩
      ⟨true, .ok (some []), fun _ => none, ⟨"t", none, []⟩⟩
      ⟨"i1", "title", none, none⟩ (fun _ _ => rfl)).2.2
     (fun _ => none)
     (fun i => if i < MAX_RETRIES then none
               else some (.obj [("needsClarification", .bool false)]))
     (fun _ hi => (if_pos hi).symm)⟩

/-- Helper: the re-triage label merge, read as an unordered set, is the
current label set minus the marker unioned with the validated ids. -/
theorem finalLabelIds_toFinset (current : List String) (m : String)
    (valid : List String) :
    (finalLabelIds current m valid).toFinset =
      (current.toFinset \ {m}) ∪ valid.toFinset := by
  ext x
  simp [finalLabelIds]

/-- Claim C8: on the re-triage completion path the single issue update
carries the label list computed by finalLabelIds, and that list, as an
unordered duplicate-free set, equals the current labels of the issue minus
the awaiting-info marker unioned with the validated new label ids. -/
theorem handleComment_retriage_label_merge
    (env : HandlerEnv) (w : World) (data : CommentData) (m : String)
    (kbS : Option (List LabelNode)) (plan : TriagePlan)
    (hbody : containsBotMarker data.body = false)
    (hm : env.awaitingInfoLabelId = some m) (hm2 : (m == "") = false)
    (hmem : w.issue.labelIds.contains m = true)
    (ht : w.teamKbOk = true) (hl : w.labelKb = .ok kbS)
    (hp : (getTriagePlan w.responses).1 = .ok plan)
    (hcf : takesClarification plan = false) :
    updateCalls (handleComment env w data) =
      [(data.issueId, retriageUpdatePayload kbS plan w.issue.labelIds m)] ∧
    (retriageUpdatePayload kbS plan w.issue.labelIds m).labelIds =
      some (finalLabelIds w.issue.labelIds m
        (validateLabelIds kbS (plan.labelIds.getD []))) ∧
    (finalLabelIds w.issue.labelIds m
        (validateLabelIds kbS (plan.labelIds.getD []))).toFinset =
      (w.issue.labelIds.toFinset \ {m}) ∪
        (validateLabelIds kbS (plan.labelIds.getD [])).toFinset := by
  refine ⟨?_, rfl, finalLabelIds_toFinset _ _ _⟩
  have hmem2 : m ∈ w.issue.labelIds := by simpa using hmem
  simp [handleComment, updateCalls, hbody, hm, hm2, hmem2, ht, hl, hp, hcf]
  intro a ha
  obtain ⟨t, rfl⟩ := subtaskStep_elems data.issueId plan.subtasks a ha
  rfl

/-- Witness for C8: current labels A and M, validated new labels B and C;
the applied label list is A, B, C, whose set is exactly the three labels
with the marker gone and no duplicates. -/
theorem handleComment_retriage_label_merge_witness :
    updateCalls (handleComment ⟨some "M"⟩
      ⟨true, .ok (some [⟨"B", "bug"⟩, ⟨"C", "customer"⟩]),
       fun _ => some (.obj [("needsClarification", .bool false),
         ("labelIds", .arr [.str "B", .str "C"])]),
       ⟨"t", none, ["A", "M"]⟩⟩
      ⟨"c1", "here is the missing info", "i1", "u1"⟩) =
      [("i1", retriageUpdatePayload (some [⟨"B", "bug"⟩, ⟨"C", "customer"⟩])
        { rewrite := none, priority := none, teamId := none,
          labelIds := some ["B", "C"], estimate := none, assigneeId := none,
          subtasks := none, needsClarification := false,
          clarificationComment := none } ["A", "M"] "M")] ∧
    finalLabelIds ["A", "M"] "M" ["B", "C"] = ["A", "B", "C"] ∧
    (finalLabelIds ["A", "M"] "M" ["B", "C"]).toFinset =
      ({"A", "B", "C"} : Finset String) :=
  ⟨(handleComment_retriage_label_merge _ _ _ "M"
      (some [⟨"B", "bug"⟩, ⟨"C", "customer"⟩])
      { rewrite := none, priority := none, teamId := none,
        labelIds := some ["B", "C"], estimate := none, assigneeId := none,
        subtasks := none, needsClarification := false,
        clarificationComment := none }
      (by decide) rfl (by decide) (by decide) rfl rfl (by decide)
      (by decide)).1,
   by decide, by decide⟩

/-- Counterexample to claim C5 as stated: raw output with
needsClarification true and clarificationComment absent passes the schema
and is accepted by getTriagePlan on the first attempt with no retry and no
delay, and a clarificationComment that does not end with the bot marker
token also passes the schema. -/
theorem triagePlanSchema_counterexample :
    parseTriagePlan (.obj [("needsClarification", .bool true)]) =
      some { rewrite := none, priority := none, teamId := none,
             labelIds := none, estimate := none, assigneeId := none,
             subtasks := none, needsClarification := true,
             clarificationComment := none } ∧
    getTriagePlan
        (fun _ => some (.obj [("needsClarification", .bool true)])) =
      (.ok { rewrite := none, priority := none, teamId := none,
             labelIds := none, estimate := none, assigneeId := none,
             subtasks := none, needsClarification := true,
             clarificationComment := none }, []) ∧
    parseTriagePlan (.obj [("needsClarification", .bool true),
        ("clarificationComment", .str "No marker here")]) =
      some { rewrite := none, priority := none, teamId := none,
             labelIds := none, estimate := none, assigneeId := none,
             subtasks := none, needsClarification := true,
             clarificationComment := some "No marker here" } := by
  exact ⟨by decide, by decide, by decide⟩

/-- Claim C5 amended: the schema places no constraint relating
clarificationComment to needsClarification and never inspects its content:
for every boolean flag and every comment string the raw output parses
successfully, and the comment-less plan is accepted by getTriagePlan on
the first attempt without retry. -/
theorem triagePlanSchema_clarification_unconstrained (b : Bool) (s : String) :
    parseTriagePlan (.obj [("needsClarification", .bool b)]) =
      some { rewrite := none, priority := none, teamId := none,
             labelIds := none, estimate := none, assigneeId := none,
             subtasks := none, needsClarification := b,
             clarificationComment := none } ∧
    parseTriagePlan (.obj [("needsClarification", .bool b),
        ("clarificationComment", .str s)]) =
      some { rewrite := none, priority := none, teamId := none,
             labelIds := none, estimate := none, assigneeId := none,
             subtasks := none, needsClarification := b,
             clarificationComment := some s } ∧
    getTriagePlan (fun _ => some (.obj [("needsClarification", .bool b)])) =
      (.ok { rewrite := none, priority := none, teamId := none,
             labelIds := none, estimate := none, assigneeId := none,
             subtasks := none, needsClarification := b,
             clarificationComment := none }, []) := by
  refine ⟨?_, ?_, ?_⟩ <;> cases b <;> rfl
